import Mathlib

/-!
Verification of the AutoWP WordPress bridge (`src/wordpress/api.ts`,
`src/tools/taxonomyTools.ts`, `src/utils/helpers.ts` and the extended API
module) against its natural-language specification.

The TypeScript source is shallowly embedded: module-level mutable state
(`wpConfig`) becomes explicit state passing, `async` functions that issue
HTTP requests become pure functions over oracle parameters (one typed
oracle per axios call site), and every operation additionally returns the
list of HTTP requests it issued, so that "issues zero HTTP requests" is a
provable statement. Thrown JS errors become `Except` values; each
operation's `try/catch` boundary maps the error through
`formatErrorResponse` into the result envelope, exactly as in the source.
-/

namespace AutoWP

/-! ## Session configuration (`WordPressConfig`, `wpConfig`) -/

/-- Mirrors the `WordPressConfig` interface; the two optional credential
fields are `Option String` (`none` models an absent field). -/
structure WordPressConfig where
  siteUrl : String
  username : String
  password : Option String
  appPassword : Option String
  isAuthenticated : Bool
deriving Repr, DecidableEq

/-- The module-initial value of the `wpConfig` singleton. -/
def initialConfig : WordPressConfig :=
  { siteUrl := "", username := "", password := none, appPassword := none,
    isAuthenticated := false }

/-- `Partial<WordPressConfig>`: every field may be absent. -/
structure PartialWPConfig where
  siteUrl : Option String := none
  username : Option String := none
  password : Option String := none
  appPassword : Option String := none
  isAuthenticated : Option Bool := none
deriving Repr, DecidableEq

/-- `setWordPressConfig`: the object-spread merge `{ ...wpConfig, ...config }`;
fields present in the partial override the current configuration. -/
def setWordPressConfig (cfg : WordPressConfig) (p : PartialWPConfig) : WordPressConfig :=
  { siteUrl := p.siteUrl.getD cfg.siteUrl
    username := p.username.getD cfg.username
    password := match p.password with | some s => some s | none => cfg.password
    appPassword := match p.appPassword with | some s => some s | none => cfg.appPassword
    isAuthenticated := p.isAuthenticated.getD cfg.isAuthenticated }

/-- JavaScript truthiness of an optional string (`undefined` and `''` are falsy). -/
def truthy : Option String → Bool
  | none => false
  | some s => !s.isEmpty

/-- JavaScript `a || b` for strings (the empty string is falsy). -/
def jsOrStr (a b : String) : String := if a.isEmpty then b else a

/-- JavaScript `a || b` where `a` is an optional string (`name || slug || 'Unknown'`). -/
def jsOrOpt (a : Option String) (b : String) : String :=
  match a with
  | some s => jsOrStr s b
  | none => b

/-! ## Errors and the error-formatting routine -/

/-- A thrown JS error: either a plain `Error` or an axios error carrying
optional HTTP response metadata. -/
inductive JsError where
  | jsError (message : String)
  | axiosError (status : Option Nat) (statusText : Option String)
      (body : Option String) (message : String)
deriving Repr, DecidableEq

/-- The `.message` property of the error object. -/
def JsError.message : JsError → String
  | .jsError m => m
  | .axiosError _ _ _ m => m

/-- The shape of the `error` field in a failed result envelope: structured
HTTP metadata for axios errors, a plain message string otherwise. -/
inductive ErrorPayload where
  | structured (status : Option Nat) (statusText : Option String)
      (body : Option String) (message : String)
  | plain (message : String)
deriving Repr, DecidableEq

/-- `formatErrorResponse`: axios errors keep `{status, statusText, data,
message}`; any other error is reduced to its message string. -/
def formatErrorResponse : JsError → ErrorPayload
  | .axiosError st stt d m => .structured st stt d m
  | .jsError m => .plain (jsOrStr m "Unknown error")

/-! ## Base64 and the auth header (`getAuthHeader`) -/

/-- UTF-8 encoding of a single character, as `Buffer.from(string)` performs it. -/
def utf8EncodeCharNat (c : Char) : List Nat :=
  let n := c.toNat
  if n < 0x80 then [n]
  else if n < 0x800 then [0xC0 ||| (n >>> 6), 0x80 ||| (n &&& 0x3F)]
  else if n < 0x10000 then
    [0xE0 ||| (n >>> 12), 0x80 ||| ((n >>> 6) &&& 0x3F), 0x80 ||| (n &&& 0x3F)]
  else
    [0xF0 ||| (n >>> 18), 0x80 ||| ((n >>> 12) &&& 0x3F), 0x80 ||| ((n >>> 6) &&& 0x3F),
      0x80 ||| (n &&& 0x3F)]

/-- The UTF-8 bytes of a string. -/
def utf8Bytes (s : String) : List Nat := (s.data.map utf8EncodeCharNat).flatten

/-- The standard base64 alphabet. -/
def base64Alphabet : List Char :=
  "ABCDEFGHIJKLMNOPQRSTUVWXYZabcdefghijklmnopqrstuvwxyz0123456789+/".data

/-- Index into the base64 alphabet. -/
def b64char (n : Nat) : Char := base64Alphabet.getD n 'A'

/-- Base64 encoding of a byte list, with `=` padding. -/
def base64EncodeBytes : List Nat → List Char
  | [] => []
  | [a] => [b64char (a / 4), b64char (a % 4 * 16), '=', '=']
  | [a, b] => [b64char (a / 4), b64char (a % 4 * 16 + b / 16), b64char (b % 16 * 4), '=']
  | a :: b :: c :: rest =>
    b64char (a / 4) :: b64char (a % 4 * 16 + b / 16) :: b64char (b % 16 * 4 + c / 64) ::
      b64char (c % 64) :: base64EncodeBytes rest

/-- `Buffer.from(s).toString('base64')`. -/
def base64Encode (s : String) : String := String.mk (base64EncodeBytes (utf8Bytes s))

/-- The `try` block of `getAuthHeader`: an app password (if truthy) takes
precedence; otherwise the plain password is required. -/
def getAuthHeaderTry (cfg : WordPressConfig) : Except JsError String :=
  if truthy cfg.appPassword then
    .ok ("Basic " ++ base64Encode (cfg.username ++ ":" ++ cfg.appPassword.getD ""))
  else if !truthy cfg.password then
    .error (.jsError "No password or app password provided for WordPress authentication")
  else
    .ok ("Basic " ++ base64Encode (cfg.username ++ ":" ++ cfg.password.getD ""))

/-- `getAuthHeader`: the surrounding `catch` rewraps any thrown error in a
`Failed to create authentication header: ...` error. -/
def getAuthHeader (cfg : WordPressConfig) : Except JsError String :=
  match getAuthHeaderTry cfg with
  | .ok h => .ok h
  | .error e =>
    .error (.jsError ("Failed to create authentication header: " ++
      jsOrStr e.message "Unknown error"))

/-- C1: whenever `appPassword` is a non-empty string — whether or not
`password` is also set — `getAuthHeader` returns `"Basic "` followed by the
base64 encoding of `username:appPassword`; the app password, not the plain
password, is the secret used. -/
theorem C1_appPassword_precedence (cfg : WordPressConfig) (ap : String)
    (hap : cfg.appPassword = some ap) (hne : ap ≠ "") :
    getAuthHeader cfg = .ok ("Basic " ++ base64Encode (cfg.username ++ ":" ++ ap)) := by
  have hie : ap.isEmpty = false := by
    rw [Bool.eq_false_iff]
    intro h
    exact hne ((String.isEmpty_iff ap).mp h)
  simp [getAuthHeader, getAuthHeaderTry, hap, truthy, hie]

/-- Witness for C1: a configuration with both secrets set yields the header
derived from the app password (`bot:abcd 1234`). -/
theorem C1_witness :
    getAuthHeader
        { siteUrl := "https://example.com", username := "bot",
          password := some "ordinary-password", appPassword := some "abcd 1234",
          isAuthenticated := true } =
      .ok "Basic Ym90OmFiY2QgMTIzNA==" := by
  have h := C1_appPassword_precedence
    { siteUrl := "https://example.com", username := "bot",
      password := some "ordinary-password", appPassword := some "abcd 1234",
      isAuthenticated := true } "abcd 1234" rfl (by decide)
  rw [h]
  exact congrArg Except.ok (by decide)

/-! ## HTTP requests, oracles and operation outputs

Network effects are modelled by oracle parameters: one typed function per
axios call site, mapping the request to either a response value or a thrown
error. Each operation returns the session configuration after the call, its
result, and the list of requests it issued, in order. -/

/-- A record of one outbound HTTP request (method and full URL). -/
structure WPRequest where
  method : String
  url : String
deriving Repr, DecidableEq

/-- The output of one operation: the configuration after the call, the
returned value, and the HTTP requests issued. -/
structure OpOut (ρ : Type) where
  cfg : WordPressConfig
  result : ρ
  log : List WPRequest
deriving Repr, DecidableEq

/-- The generic `{ success, payload?, error? }` result envelope. -/
structure WPResult (α : Type) where
  success : Bool
  payload : Option α := none
  error : Option ErrorPayload := none
deriving Repr, DecidableEq

/-- The envelope each operation's `catch` block produces from a thrown error. -/
def failRes (e : JsError) : WPResult α :=
  { success := false, error := some (formatErrorResponse e) }

/-- A successful envelope with a payload. -/
def okRes (a : α) : WPResult α := { success := true, payload := some a }

/-- The error thrown when `siteUrl` is empty. -/
def siteUrlErr : JsError := .jsError "WordPress site URL not configured"

/-- The error thrown when the authenticated flag is false. -/
def notAuthErr : JsError := .jsError "Not authenticated"

/-- The local error a resource operation fails with when its preconditions
do not hold (the `siteUrl` check runs first). -/
def localGuardError (cfg : WordPressConfig) : JsError :=
  if cfg.siteUrl.isEmpty then siteUrlErr else notAuthErr

/-! ## Authentication probe (`testAuthentication`) -/

/-- The JSON shape of `GET /wp-json/wp/v2/users/me`; `name`, `roles` and
`slug` may be absent at runtime. -/
structure WPUserResponse where
  id : Nat
  name : Option String
  roles : Option (List String)
  slug : Option String
deriving Repr, DecidableEq

/-- The extracted `{id, name, roles}` user summary. -/
structure UserInfo where
  id : Nat
  name : String
  roles : List String
deriving Repr, DecidableEq

/-- The `{success, userInfo?, error?}` result of `testAuthentication`. -/
structure AuthResult where
  success : Bool
  userInfo : Option UserInfo := none
  error : Option String := none
deriving Repr, DecidableEq

/-- The probe request issued by `testAuthentication`. -/
def usersMeReq (cfg : WordPressConfig) : WPRequest :=
  { method := "GET", url := cfg.siteUrl ++ "/wp-json/wp/v2/users/me" }

/-- `testAuthentication`: derives the auth header, probes `/users/me`, sets
the authenticated flag true on success and false on any failure (header
derivation failure included — the `catch` block runs). -/
def testAuthentication (cfg : WordPressConfig)
    (httpGetMe : WPRequest → Except JsError WPUserResponse) : OpOut AuthResult :=
  match getAuthHeader cfg with
  | .error e =>
    { cfg := { cfg with isAuthenticated := false },
      result := { success := false, error := some e.message }, log := [] }
  | .ok _h =>
    match httpGetMe (usersMeReq cfg) with
    | .error e =>
      { cfg := { cfg with isAuthenticated := false },
        result := { success := false, error := some e.message },
        log := [usersMeReq cfg] }
    | .ok u =>
      let info : UserInfo :=
        { id := u.id, name := jsOrOpt u.name (jsOrOpt u.slug "Unknown"),
          roles := u.roles.getD ["contributor"] }
      { cfg := { cfg with isAuthenticated := true },
        result := { success := true, userInfo := some info },
        log := [usersMeReq cfg] }

/-- C3: after any call to `testAuthentication`, the stored `isAuthenticated`
flag equals the call's outcome — true exactly when both the header
derivation and the probe of `/wp-json/wp/v2/users/me` succeed, false on any
failure; since this holds for every starting configuration, the flag
reflects only the most recent probe and is never sticky. -/
theorem C3_flag_equals_probe_outcome (cfg : WordPressConfig)
    (httpGetMe : WPRequest → Except JsError WPUserResponse) :
    (testAuthentication cfg httpGetMe).cfg.isAuthenticated =
        (testAuthentication cfg httpGetMe).result.success ∧
      ((testAuthentication cfg httpGetMe).result.success = true ↔
        (∃ h, getAuthHeader cfg = .ok h) ∧
          ∃ u, httpGetMe (usersMeReq cfg) = .ok u) := by
  unfold testAuthentication
  cases hA : getAuthHeader cfg with
  | error e => simp [hA]
  | ok h =>
    cases hu : httpGetMe (usersMeReq cfg) with
    | error e => simp [hu]
    | ok u => simp [hu]

/-! ## Post operations

Each operation `x` is split into `xRun` (its `try/catch` body, returning the
result envelope and the request log) and a wrapper fixing `cfg` unchanged —
mirroring that none of these functions assign to `wpConfig`. -/

/-- A `{rendered: string}` wrapper object. -/
structure RenderedText where
  rendered : String
deriving Repr, DecidableEq

/-- JSON shape of a created/updated post response. -/
structure WPPostResponse where
  id : Nat
  title : RenderedText
  link : String
  status : String
deriving Repr, DecidableEq

/-- The simplified local post view. -/
structure WPPost where
  id : Nat
  title : String
  link : String
  status : String
deriving Repr, DecidableEq

/-- The JSON body sent by `createPost`. -/
structure PostBody where
  title : String
  content : String
  status : String
  excerpt : String
  categories : List Nat
  tags : List Nat
deriving Repr, DecidableEq

/-- `createPost` body: guards, header derivation, one POST. -/
def createPostRun (cfg : WordPressConfig)
    (httpPost : WPRequest → PostBody → Except JsError WPPostResponse)
    (title content : String) (status : String) (excerpt : String)
    (categories : List Nat) (tags : List Nat) : WPResult WPPost × List WPRequest :=
  if cfg.siteUrl.isEmpty then (failRes siteUrlErr, [])
  else if !cfg.isAuthenticated then (failRes notAuthErr, [])
  else
    match getAuthHeader cfg with
    | .error e => (failRes e, [])
    | .ok _h =>
      let req : WPRequest := { method := "POST", url := cfg.siteUrl ++ "/wp-json/wp/v2/posts" }
      match httpPost req { title, content, status, excerpt, categories, tags } with
      | .error e => (failRes e, [req])
      | .ok r =>
        (okRes { id := r.id, title := r.title.rendered, link := r.link, status := r.status },
          [req])

/-- `createPost` (defaults: `status='draft'`, `excerpt=''`, empty ID lists). -/
def createPost (cfg : WordPressConfig)
    (httpPost : WPRequest → PostBody → Except JsError WPPostResponse)
    (title content : String) (status : String := "draft") (excerpt : String := "")
    (categories : List Nat := []) (tags : List Nat := []) : OpOut (WPResult WPPost) :=
  let r := createPostRun cfg httpPost title content status excerpt categories tags
  { cfg := cfg, result := r.1, log := r.2 }

/-- Options accepted by `listPosts`. -/
structure ListPostsOptions where
  page : Option Nat := none
  perPage : Option Nat := none
  status : Option String := none
  author : Option Nat := none
  categories : Option (List Nat) := none
  tags : Option (List Nat) := none
  search : Option String := none
  orderBy : Option String := none
  order : Option String := none
deriving Repr, DecidableEq

/-- JavaScript truthiness of an optional number (`undefined` and `0` are falsy). -/
def truthyNat : Option Nat → Bool
  | none => false
  | some n => n != 0

/-- Truthiness of `xs?.length` for an optional ID list. -/
def truthyList : Option (List Nat) → Bool
  | none => false
  | some l => !l.isEmpty

/-- `Array.prototype.join(sep)`. -/
def jsJoinStr (sep : String) : List String → String
  | [] => ""
  | [a] => a
  | a :: b :: rest => a ++ sep ++ jsJoinStr sep (b :: rest)

/-- Rendering of `URLSearchParams` built by successive `append` calls
(percent-encoding is not modelled; all values used here are unreserved). -/
def renderParams (ps : List (String × String)) : String :=
  jsJoinStr "&" (ps.map (fun kv => kv.1 ++ "=" ++ kv.2))

/-- The query parameters `listPosts` appends, in source order. -/
def listPostsParams (o : ListPostsOptions) : List (String × String) :=
  (if truthyNat o.page then [("page", toString (o.page.getD 0))] else []) ++
  (if truthyNat o.perPage then [("per_page", toString (o.perPage.getD 0))] else []) ++
  (if truthy o.status then [("status", o.status.getD "")] else []) ++
  (if truthyNat o.author then [("author", toString (o.author.getD 0))] else []) ++
  (if truthyList o.categories then
    [("categories", jsJoinStr "," ((o.categories.getD []).map toString))] else []) ++
  (if truthyList o.tags then [("tags", jsJoinStr "," ((o.tags.getD []).map toString))] else []) ++
  (if truthy o.search then [("search", o.search.getD "")] else []) ++
  (if truthy o.orderBy then [("orderby", o.orderBy.getD "")] else []) ++
  (if truthy o.order then [("order", o.order.getD "")] else [])

/-- JSON shape of one post in the list response. -/
structure WPPostJson where
  id : Nat
  title : RenderedText
  excerpt : RenderedText
  status : String
  link : String
  date : String
  modified : String
  categories : List Nat
  tags : List Nat
  author : Nat
deriving Repr, DecidableEq

/-- A list response: the JSON array plus the two pagination headers. -/
structure ListPostsData where
  posts : List WPPostJson
  totalPagesHeader : Option String := none
  totalHeader : Option String := none
deriving Repr, DecidableEq

/-- The flattened post summary in the result envelope. -/
structure WPPostSummary where
  id : Nat
  title : String
  excerpt : String
  status : String
  link : String
  date : String
  modified : String
  categories : List Nat
  tags : List Nat
  author : Nat
deriving Repr, DecidableEq

/-- `parseInt` restricted to what the pagination headers need: a leading run
of decimal digits, `none` standing for `NaN`. -/
def jsParseNat (s : String) : Option Nat :=
  let ds := s.data.takeWhile Char.isDigit
  if ds.isEmpty then none
  else some (ds.foldl (fun acc c => acc * 10 + (c.toNat - '0'.toNat)) 0)

/-- The payload of a successful `listPosts`. -/
structure ListPostsPayload where
  posts : List WPPostSummary
  totalPages : Option Nat
  totalPosts : Option Nat
deriving Repr, DecidableEq

/-- `listPosts` body. -/
def listPostsRun (cfg : WordPressConfig)
    (httpGet : WPRequest → Except JsError ListPostsData)
    (options : ListPostsOptions) : WPResult ListPostsPayload × List WPRequest :=
  if cfg.siteUrl.isEmpty then (failRes siteUrlErr, [])
  else if !cfg.isAuthenticated then (failRes notAuthErr, [])
  else
    match getAuthHeader cfg with
    | .error e => (failRes e, [])
    | .ok _h =>
      let req : WPRequest :=
        { method := "GET",
          url := cfg.siteUrl ++ "/wp-json/wp/v2/posts?" ++ renderParams (listPostsParams options) }
      match httpGet req with
      | .error e => (failRes e, [req])
      | .ok d =>
        let posts := d.posts.map (fun p =>
          { id := p.id, title := p.title.rendered, excerpt := p.excerpt.rendered,
            status := p.status, link := p.link, date := p.date, modified := p.modified,
            categories := p.categories, tags := p.tags, author := p.author : WPPostSummary })
        let payload : ListPostsPayload :=
          { posts := posts,
            totalPages := jsParseNat (jsOrOpt d.totalPagesHeader "1"),
            totalPosts := jsParseNat (jsOrOpt d.totalHeader "0") }
        (okRes payload, [req])

/-- `listPosts`. -/
def listPosts (cfg : WordPressConfig)
    (httpGet : WPRequest → Except JsError ListPostsData)
    (options : ListPostsOptions := {}) : OpOut (WPResult ListPostsPayload) :=
  let r := listPostsRun cfg httpGet options
  { cfg := cfg, result := r.1, log := r.2 }

/-- JSON shape of a single-post GET. -/
structure WPPostDetailJson where
  id : Nat
  title : RenderedText
  content : RenderedText
  excerpt : RenderedText
  status : String
  link : String
  date : String
  modified : String
  categories : List Nat
  tags : List Nat
  author : Nat
deriving Repr, DecidableEq

/-- The flattened detailed post view. -/
structure WPPostDetailed where
  id : Nat
  title : String
  content : String
  excerpt : String
  status : String
  link : String
  date : String
  modified : String
  categories : List Nat
  tags : List Nat
  author : Nat
deriving Repr, DecidableEq

/-- The payload of a successful `getPost` (revisions kept opaque). -/
structure GetPostPayload where
  post : WPPostDetailed
  revisions : Option (List String)
deriving Repr, DecidableEq

/-- `getPost` body: the revisions fetch failure is swallowed (only warned),
leaving `revisions` as the empty array. -/
def getPostRun (cfg : WordPressConfig)
    (httpGet : WPRequest → Except JsError WPPostDetailJson)
    (httpGetRevisions : WPRequest → Except JsError (List String))
    (postId : Nat) (includeRevisions : Bool) : WPResult GetPostPayload × List WPRequest :=
  if cfg.siteUrl.isEmpty then (failRes siteUrlErr, [])
  else if !cfg.isAuthenticated then (failRes notAuthErr, [])
  else
    match getAuthHeader cfg with
    | .error e => (failRes e, [])
    | .ok _h =>
      let req : WPRequest :=
        { method := "GET", url := cfg.siteUrl ++ "/wp-json/wp/v2/posts/" ++ toString postId }
      match httpGet req with
      | .error e => (failRes e, [req])
      | .ok p =>
        let revReq : WPRequest :=
          { method := "GET",
            url := cfg.siteUrl ++ "/wp-json/wp/v2/posts/" ++ toString postId ++ "/revisions" }
        let revAndLog : List String × List WPRequest :=
          if includeRevisions then
            match httpGetRevisions revReq with
            | .error _ => ([], [revReq])
            | .ok rs => (rs, [revReq])
          else ([], [])
        let post : WPPostDetailed :=
          { id := p.id, title := p.title.rendered, content := p.content.rendered,
            excerpt := p.excerpt.rendered, status := p.status, link := p.link,
            date := p.date, modified := p.modified, categories := p.categories,
            tags := p.tags, author := p.author }
        let payload : GetPostPayload :=
          { post := post,
            revisions := if includeRevisions then some revAndLog.1 else none }
        (okRes payload, req :: revAndLog.2)

/-- `getPost`. -/
def getPost (cfg : WordPressConfig)
    (httpGet : WPRequest → Except JsError WPPostDetailJson)
    (httpGetRevisions : WPRequest → Except JsError (List String))
    (postId : Nat) (includeRevisions : Bool := false) : OpOut (WPResult GetPostPayload) :=
  let r := getPostRun cfg httpGet httpGetRevisions postId includeRevisions
  { cfg := cfg, result := r.1, log := r.2 }

/-- The partial updates accepted by `updatePost`. -/
structure PostUpdates where
  title : Option String := none
  content : Option String := none
  status : Option String := none
  excerpt : Option String := none
  categories : Option (List Nat) := none
  tags : Option (List Nat) := none
deriving Repr, DecidableEq

/-- `updatePost` body. -/
def updatePostRun (cfg : WordPressConfig)
    (httpPut : WPRequest → PostUpdates → Except JsError WPPostResponse)
    (postId : Nat) (updates : PostUpdates) : WPResult WPPost × List WPRequest :=
  if cfg.siteUrl.isEmpty then (failRes siteUrlErr, [])
  else if !cfg.isAuthenticated then (failRes notAuthErr, [])
  else
    match getAuthHeader cfg with
    | .error e => (failRes e, [])
    | .ok _h =>
      let req : WPRequest :=
        { method := "PUT", url := cfg.siteUrl ++ "/wp-json/wp/v2/posts/" ++ toString postId }
      match httpPut req updates with
      | .error e => (failRes e, [req])
      | .ok r =>
        (okRes { id := r.id, title := r.title.rendered, link := r.link, status := r.status },
          [req])

/-- `updatePost`. -/
def updatePost (cfg : WordPressConfig)
    (httpPut : WPRequest → PostUpdates → Except JsError WPPostResponse)
    (postId : Nat) (updates : PostUpdates) : OpOut (WPResult WPPost) :=
  let r := updatePostRun cfg httpPut postId updates
  { cfg := cfg, result := r.1, log := r.2 }

/-- JSON shape of a DELETE response (`deleted` may be absent). -/
structure WPDeleteResponse where
  deleted : Option Bool := none
  previous : Option String := none
deriving Repr, DecidableEq

/-- The `{deleted, previous}` payload of a successful delete. -/
structure DeletePayload where
  deleted : Bool
  previous : Option String
deriving Repr, DecidableEq

/-- `deletePost` body (`?force=true` appended only when forcing). -/
def deletePostRun (cfg : WordPressConfig)
    (httpDelete : WPRequest → Except JsError WPDeleteResponse)
    (postId : Nat) (force : Bool) : WPResult DeletePayload × List WPRequest :=
  if cfg.siteUrl.isEmpty then (failRes siteUrlErr, [])
  else if !cfg.isAuthenticated then (failRes notAuthErr, [])
  else
    match getAuthHeader cfg with
    | .error e => (failRes e, [])
    | .ok _h =>
      let req : WPRequest :=
        { method := "DELETE",
          url := cfg.siteUrl ++ "/wp-json/wp/v2/posts/" ++ toString postId ++
            (if force then "?force=true" else "") }
      match httpDelete req with
      | .error e => (failRes e, [req])
      | .ok d => (okRes { deleted := d.deleted.getD false, previous := d.previous }, [req])

/-- `deletePost`. -/
def deletePost (cfg : WordPressConfig)
    (httpDelete : WPRequest → Except JsError WPDeleteResponse)
    (postId : Nat) (force : Bool := false) : OpOut (WPResult DeletePayload) :=
  let r := deletePostRun cfg httpDelete postId force
  { cfg := cfg, result := r.1, log := r.2 }

/-! ## Taxonomy operations -/

/-- A category as returned by the REST API and reshaped locally. -/
structure WPCategory where
  id : Nat
  name : String
  slug : String
  count : Nat
deriving Repr, DecidableEq

/-- A tag (same shape as a category). -/
structure WPTag where
  id : Nat
  name : String
  slug : String
  count : Nat
deriving Repr, DecidableEq

/-- `getCategories` body: one GET of `categories?per_page=100`, field-wise copy. -/
def getCategoriesRun (cfg : WordPressConfig)
    (httpGet : WPRequest → Except JsError (List WPCategory)) :
    WPResult (List WPCategory) × List WPRequest :=
  if cfg.siteUrl.isEmpty then (failRes siteUrlErr, [])
  else if !cfg.isAuthenticated then (failRes notAuthErr, [])
  else
    match getAuthHeader cfg with
    | .error e => (failRes e, [])
    | .ok _h =>
      let req : WPRequest :=
        { method := "GET", url := cfg.siteUrl ++ "/wp-json/wp/v2/categories?per_page=100" }
      match httpGet req with
      | .error e => (failRes e, [req])
      | .ok cs =>
        (okRes (cs.map (fun c =>
          { id := c.id, name := c.name, slug := c.slug, count := c.count })), [req])

/-- `getCategories`. -/
def getCategories (cfg : WordPressConfig)
    (httpGet : WPRequest → Except JsError (List WPCategory)) :
    OpOut (WPResult (List WPCategory)) :=
  let r := getCategoriesRun cfg httpGet
  { cfg := cfg, result := r.1, log := r.2 }

/-- `getTags` body: one GET of `tags?per_page=100`, data passed through. -/
def getTagsRun (cfg : WordPressConfig)
    (httpGet : WPRequest → Except JsError (List WPTag)) :
    WPResult (List WPTag) × List WPRequest :=
  if cfg.siteUrl.isEmpty then (failRes siteUrlErr, [])
  else if !cfg.isAuthenticated then (failRes notAuthErr, [])
  else
    match getAuthHeader cfg with
    | .error e => (failRes e, [])
    | .ok _h =>
      let req : WPRequest :=
        { method := "GET", url := cfg.siteUrl ++ "/wp-json/wp/v2/tags?per_page=100" }
      match httpGet req with
      | .error e => (failRes e, [req])
      | .ok ts => (okRes ts, [req])

/-- `getTags`. -/
def getTags (cfg : WordPressConfig)
    (httpGet : WPRequest → Except JsError (List WPTag)) : OpOut (WPResult (List WPTag)) :=
  let r := getTagsRun cfg httpGet
  { cfg := cfg, result := r.1, log := r.2 }

/-- The body sent by `createCategory`. -/
structure CategoryCreateData where
  name : String
  slug : Option String := none
  description : Option String := none
  parent : Option Nat := none
deriving Repr, DecidableEq

/-- `createCategory` body. -/
def createCategoryRun (cfg : WordPressConfig)
    (httpPost : WPRequest → CategoryCreateData → Except JsError WPCategory)
    (data : CategoryCreateData) : WPResult WPCategory × List WPRequest :=
  if cfg.siteUrl.isEmpty then (failRes siteUrlErr, [])
  else if !cfg.isAuthenticated then (failRes notAuthErr, [])
  else
    match getAuthHeader cfg with
    | .error e => (failRes e, [])
    | .ok _h =>
      let req : WPRequest :=
        { method := "POST", url := cfg.siteUrl ++ "/wp-json/wp/v2/categories" }
      match httpPost req data with
      | .error e => (failRes e, [req])
      | .ok c => (okRes c, [req])

/-- `createCategory`. -/
def createCategory (cfg : WordPressConfig)
    (httpPost : WPRequest → CategoryCreateData → Except JsError WPCategory)
    (data : CategoryCreateData) : OpOut (WPResult WPCategory) :=
  let r := createCategoryRun cfg httpPost data
  { cfg := cfg, result := r.1, log := r.2 }

/-- The delete request `deleteCategory` issues. -/
def categoryDeleteReq (cfg : WordPressConfig) (categoryId : Nat) (force : Bool) : WPRequest :=
  { method := "DELETE",
    url := cfg.siteUrl ++ "/wp-json/wp/v2/categories/" ++ toString categoryId ++
      (if force then "?force=true" else "") }

/-- `deleteCategory` body. -/
def deleteCategoryRun (cfg : WordPressConfig)
    (httpDelete : WPRequest → Except JsError WPDeleteResponse)
    (categoryId : Nat) (force : Bool) : WPResult DeletePayload × List WPRequest :=
  if cfg.siteUrl.isEmpty then (failRes siteUrlErr, [])
  else if !cfg.isAuthenticated then (failRes notAuthErr, [])
  else
    match getAuthHeader cfg with
    | .error e => (failRes e, [])
    | .ok _h =>
      let req := categoryDeleteReq cfg categoryId force
      match httpDelete req with
      | .error e => (failRes e, [req])
      | .ok d => (okRes { deleted := d.deleted.getD false, previous := d.previous }, [req])

/-- `deleteCategory`: catches its own errors and returns an envelope. -/
def deleteCategory (cfg : WordPressConfig)
    (httpDelete : WPRequest → Except JsError WPDeleteResponse)
    (categoryId : Nat) (force : Bool := false) : OpOut (WPResult DeletePayload) :=
  let r := deleteCategoryRun cfg httpDelete categoryId force
  { cfg := cfg, result := r.1, log := r.2 }

/-- `deleteTag` body (same template against the tags endpoint). -/
def deleteTagRun (cfg : WordPressConfig)
    (httpDelete : WPRequest → Except JsError WPDeleteResponse)
    (tagId : Nat) (force : Bool) : WPResult DeletePayload × List WPRequest :=
  if cfg.siteUrl.isEmpty then (failRes siteUrlErr, [])
  else if !cfg.isAuthenticated then (failRes notAuthErr, [])
  else
    match getAuthHeader cfg with
    | .error e => (failRes e, [])
    | .ok _h =>
      let req : WPRequest :=
        { method := "DELETE",
          url := cfg.siteUrl ++ "/wp-json/wp/v2/tags/" ++ toString tagId ++
            (if force then "?force=true" else "") }
      match httpDelete req with
      | .error e => (failRes e, [req])
      | .ok d => (okRes { deleted := d.deleted.getD false, previous := d.previous }, [req])

/-- `deleteTag`. -/
def deleteTag (cfg : WordPressConfig)
    (httpDelete : WPRequest → Except JsError WPDeleteResponse)
    (tagId : Nat) (force : Bool := false) : OpOut (WPResult DeletePayload) :=
  let r := deleteTagRun cfg httpDelete tagId force
  { cfg := cfg, result := r.1, log := r.2 }

/-! ## Category merging (`mergeCategories`) and its tool handler -/

/-- The fields of a post that `mergeCategories` reads. -/
structure MergePostJson where
  id : Nat
  categories : List Nat
deriving Repr, DecidableEq

/-- The request fetching up to 100 posts in the source category. -/
def mergeGetPostsReq (cfg : WordPressConfig) (sourceCategoryId : Nat) : WPRequest :=
  { method := "GET",
    url := cfg.siteUrl ++ "/wp-json/wp/v2/posts?categories=" ++ toString sourceCategoryId ++
      "&per_page=100" }

/-- The per-post update loop of `mergeCategories`: drop the source ID,
append the target ID when missing, PUT the new list; a failing PUT aborts
the loop (the error propagates to the operation's `catch`). -/
def mergeLoop (cfg : WordPressConfig)
    (httpPutPost : WPRequest → List Nat → Except JsError Unit)
    (sourceCategoryId targetCategoryId : Nat) :
    List MergePostJson → Nat → Except JsError Nat × List WPRequest
  | [], mergedCount => (.ok mergedCount, [])
  | post :: rest, mergedCount =>
    let currentCategories := post.categories.filter (fun i => i ≠ sourceCategoryId)
    let newCategories :=
      if currentCategories.contains targetCategoryId then currentCategories
      else currentCategories ++ [targetCategoryId]
    let req : WPRequest :=
      { method := "PUT", url := cfg.siteUrl ++ "/wp-json/wp/v2/posts/" ++ toString post.id }
    match httpPutPost req newCategories with
    | .error e => (.error e, [req])
    | .ok _ =>
      let r := mergeLoop cfg httpPutPost sourceCategoryId targetCategoryId rest (mergedCount + 1)
      (r.1, req :: r.2)

/-- `mergeCategories` body: fetch the source category's posts, rewrite each,
then (optionally) force-delete the source category via `deleteCategory`,
whose result envelope is not inspected. -/
def mergeCategoriesRun (cfg : WordPressConfig)
    (httpGetPosts : WPRequest → Except JsError (List MergePostJson))
    (httpPutPost : WPRequest → List Nat → Except JsError Unit)
    (httpDeleteCat : WPRequest → Except JsError WPDeleteResponse)
    (sourceCategoryId targetCategoryId : Nat) (deleteSource : Bool) :
    WPResult Nat × List WPRequest :=
  if cfg.siteUrl.isEmpty then (failRes siteUrlErr, [])
  else if !cfg.isAuthenticated then (failRes notAuthErr, [])
  else
    match getAuthHeader cfg with
    | .error e => (failRes e, [])
    | .ok _h =>
      let getReq := mergeGetPostsReq cfg sourceCategoryId
      match httpGetPosts getReq with
      | .error e => (failRes e, [getReq])
      | .ok posts =>
        let loop := mergeLoop cfg httpPutPost sourceCategoryId targetCategoryId posts 0
        match loop.1 with
        | .error e => (failRes e, getReq :: loop.2)
        | .ok mergedCount =>
          if deleteSource then
            let del := deleteCategory cfg httpDeleteCat sourceCategoryId true
            (okRes mergedCount, getReq :: loop.2 ++ del.log)
          else (okRes mergedCount, getReq :: loop.2)

/-- `mergeCategories` (default `deleteSource=true`). -/
def mergeCategories (cfg : WordPressConfig)
    (httpGetPosts : WPRequest → Except JsError (List MergePostJson))
    (httpPutPost : WPRequest → List Nat → Except JsError Unit)
    (httpDeleteCat : WPRequest → Except JsError WPDeleteResponse)
    (sourceCategoryId targetCategoryId : Nat) (deleteSource : Bool := true) :
    OpOut (WPResult Nat) :=
  let r := mergeCategoriesRun cfg httpGetPosts httpPutPost httpDeleteCat
    sourceCategoryId targetCategoryId deleteSource
  { cfg := cfg, result := r.1, log := r.2 }

/-- The tool-call envelope: one text block plus the error flag. -/
structure ToolResult where
  text : String
  isError : Bool
deriving Repr, DecidableEq

/-- The `merge-categories` tool handler (`taxonomyTools.ts`): rejects equal
source and target IDs before calling `mergeCategories`; otherwise it calls
the API function and returns the placeholder text. -/
def mergeCategoriesTool (cfg : WordPressConfig)
    (httpGetPosts : WPRequest → Except JsError (List MergePostJson))
    (httpPutPost : WPRequest → List Nat → Except JsError Unit)
    (httpDeleteCat : WPRequest → Except JsError WPDeleteResponse)
    (sourceCategoryId targetCategoryId : Nat) (deleteSource : Bool := true) :
    ToolResult × List WPRequest :=
  if sourceCategoryId = targetCategoryId then
    ({ text := "Source and target categories cannot be the same", isError := true }, [])
  else
    let out := mergeCategories cfg httpGetPosts httpPutPost httpDeleteCat
      sourceCategoryId targetCategoryId deleteSource
    let placeholder : ToolResult :=
      { text := "⚠️ merge-categories tool not yet implemented. Please add mergeCategories function to wordpress/api.js"
        isError := true }
    (placeholder, out.log)

/-! ## User operations (extended API module) -/

/-- A user record (only the fields this development reads). -/
structure WPUser where
  id : Nat
  name : String := ""
deriving Repr, DecidableEq

/-- Options accepted by `listUsers`. -/
structure ListUsersOptions where
  page : Option Nat := none
  perPage : Option Nat := none
  role : Option String := none
  search : Option String := none
  orderBy : Option String := none
  order : Option String := none
  registeredAfter : Option String := none
  registeredBefore : Option String := none
deriving Repr, DecidableEq

/-- The query parameters `listUsers` appends, in source order. -/
def listUsersParams (o : ListUsersOptions) : List (String × String) :=
  (if truthyNat o.page then [("page", toString (o.page.getD 0))] else []) ++
  (if truthyNat o.perPage then [("per_page", toString (o.perPage.getD 0))] else []) ++
  (if truthy o.role then [("roles", o.role.getD "")] else []) ++
  (if truthy o.search then [("search", o.search.getD "")] else []) ++
  (if truthy o.orderBy then [("orderby", o.orderBy.getD "")] else []) ++
  (if truthy o.order then [("order", o.order.getD "")] else []) ++
  (if truthy o.registeredAfter then [("after", o.registeredAfter.getD "")] else []) ++
  (if truthy o.registeredBefore then [("before", o.registeredBefore.getD "")] else [])

/-- A users list response: JSON array plus the total-pages header. -/
structure ListUsersData where
  users : List WPUser
  totalPagesHeader : Option String := none
deriving Repr, DecidableEq

/-- The payload of a successful `listUsers`. -/
structure ListUsersPayload where
  users : List WPUser
  totalPages : Option Nat
deriving Repr, DecidableEq

/-- `listUsers` body. -/
def listUsersRun (cfg : WordPressConfig)
    (httpGet : WPRequest → Except JsError ListUsersData)
    (options : ListUsersOptions) : WPResult ListUsersPayload × List WPRequest :=
  if cfg.siteUrl.isEmpty then (failRes siteUrlErr, [])
  else if !cfg.isAuthenticated then (failRes notAuthErr, [])
  else
    match getAuthHeader cfg with
    | .error e => (failRes e, [])
    | .ok _h =>
      let req : WPRequest :=
        { method := "GET",
          url := cfg.siteUrl ++ "/wp-json/wp/v2/users?" ++ renderParams (listUsersParams options) }
      match httpGet req with
      | .error e => (failRes e, [req])
      | .ok d =>
        (okRes { users := d.users, totalPages := jsParseNat (jsOrOpt d.totalPagesHeader "1") },
          [req])

/-- `listUsers`. -/
def listUsers (cfg : WordPressConfig)
    (httpGet : WPRequest → Except JsError ListUsersData)
    (options : ListUsersOptions := {}) : OpOut (WPResult ListUsersPayload) :=
  let r := listUsersRun cfg httpGet options
  { cfg := cfg, result := r.1, log := r.2 }

/-- The partial user data accepted by `updateUser`. -/
structure UpdateUserData where
  email : Option String := none
  firstName : Option String := none
  lastName : Option String := none
  displayName : Option String := none
  bio : Option String := none
  website : Option String := none
  password : Option String := none
deriving Repr, DecidableEq

/-- The conditionally-built payload `updateUser` sends (a field is present
only when the corresponding input is truthy). -/
structure UserUpdatePayload where
  email : Option String := none
  firstName : Option String := none
  lastName : Option String := none
  displayName : Option String := none
  bio : Option String := none
  website : Option String := none
  password : Option String := none
deriving Repr, DecidableEq

/-- The `if (userData.x) payload.x = userData.x` chain of `updateUser`. -/
def buildUserUpdatePayload (d : UpdateUserData) : UserUpdatePayload :=
  { email := if truthy d.email then d.email else none
    firstName := if truthy d.firstName then d.firstName else none
    lastName := if truthy d.lastName then d.lastName else none
    displayName := if truthy d.displayName then d.displayName else none
    bio := if truthy d.bio then d.bio else none
    website := if truthy d.website then d.website else none
    password := if truthy d.password then d.password else none }

/-- `updateUser` body: one POST to `/users/{id}`. -/
def updateUserRun (cfg : WordPressConfig)
    (httpPost : WPRequest → UserUpdatePayload → Except JsError WPUser)
    (userId : Nat) (userData : UpdateUserData) : WPResult WPUser × List WPRequest :=
  if cfg.siteUrl.isEmpty then (failRes siteUrlErr, [])
  else if !cfg.isAuthenticated then (failRes notAuthErr, [])
  else
    let payload := buildUserUpdatePayload userData
    match getAuthHeader cfg with
    | .error e => (failRes e, [])
    | .ok _h =>
      let req : WPRequest :=
        { method := "POST", url := cfg.siteUrl ++ "/wp-json/wp/v2/users/" ++ toString userId }
      match httpPost req payload with
      | .error e => (failRes e, [req])
      | .ok u => (okRes u, [req])

/-- `updateUser`. -/
def updateUser (cfg : WordPressConfig)
    (httpPost : WPRequest → UserUpdatePayload → Except JsError WPUser)
    (userId : Nat) (userData : UpdateUserData) : OpOut (WPResult WPUser) :=
  let r := updateUserRun cfg httpPost userId userData
  { cfg := cfg, result := r.1, log := r.2 }

/-- The options of `resetUserPassword`. -/
structure ResetPwOptions where
  userId : Option Nat := none
  email : Option String := none
  sendEmail : Option Bool := none
deriving Repr, DecidableEq

/-- The `{success, message?, resetLink?, error?}` result of `resetUserPassword`. -/
structure ResetPwResult where
  success : Bool
  message : Option String := none
  resetLink : Option String := none
  error : Option ErrorPayload := none
deriving Repr, DecidableEq

/-- JavaScript `String.prototype.slice(-n)`: the last `n` characters, or the
whole string when it is shorter. -/
def jsSliceNeg (n : Nat) (l : List Char) : List Char := l.drop (l.length - n)

/-- The local password generation of `resetUserPassword`:
`Math.random().toString(36).slice(-12)`. The argument stands for the
base-36 string `Math.random().toString(36)` of the drawn float. -/
def generateTempPassword (randBase36 : List Char) : List Char := jsSliceNeg 12 randBase36

/-- `resetUserPassword` body: resolve the user (searching by email when no
truthy ID is given), generate the password from the random draw, push it via
`updateUser`, and return it in `resetLink` unless an email was requested. -/
def resetUserPasswordRun (cfg : WordPressConfig)
    (httpListUsers : WPRequest → Except JsError ListUsersData)
    (httpUpdateUser : WPRequest → UserUpdatePayload → Except JsError WPUser)
    (options : ResetPwOptions) (randBase36 : List Char) :
    ResetPwResult × List WPRequest :=
  if cfg.siteUrl.isEmpty then
    ({ success := false, error := some (formatErrorResponse siteUrlErr) }, [])
  else if !cfg.isAuthenticated then
    ({ success := false, error := some (formatErrorResponse notAuthErr) }, [])
  else
    let resolved : Except JsError Nat × List WPRequest :=
      if !truthyNat options.userId && truthy options.email then
        let lu := listUsers cfg httpListUsers { search := options.email, perPage := some 1 }
        match lu.result.success, lu.result.payload with
        | true, some p =>
          match p.users with
          | [] => (.error (.jsError "User not found with provided email"), lu.log)
          | u :: _ => (.ok u.id, lu.log)
        | _, _ => (.error (.jsError "User not found with provided email"), lu.log)
      else
        match options.userId with
        | some n => (.ok n, [])
        | none => (.error (.jsError "User ID could not be determined"), [])
    match resolved.1 with
    | .error e => ({ success := false, error := some (formatErrorResponse e) }, resolved.2)
    | .ok userId =>
      if userId = 0 then
        let e := formatErrorResponse (.jsError "User ID could not be determined")
        ({ success := false, error := some e }, resolved.2)
      else
        let newPassword := String.mk (generateTempPassword randBase36)
        let uu := updateUser cfg httpUpdateUser userId { password := some newPassword }
        if !uu.result.success then
          let e := formatErrorResponse (.jsError "Failed to reset password")
          ({ success := false, error := some e }, resolved.2 ++ uu.log)
        else
          let sendEmail := options.sendEmail.getD false
          let msg := "Password reset for user " ++ toString userId ++ ". " ++
            (if sendEmail then "Reset notification sent via email."
              else "New password generated.")
          let link := if sendEmail then none
            else some ("Temporary password: " ++ newPassword)
          ({ success := true, message := some msg, resetLink := link },
            resolved.2 ++ uu.log)

/-- `resetUserPassword`. -/
def resetUserPassword (cfg : WordPressConfig)
    (httpListUsers : WPRequest → Except JsError ListUsersData)
    (httpUpdateUser : WPRequest → UserUpdatePayload → Except JsError WPUser)
    (options : ResetPwOptions) (randBase36 : List Char) : OpOut ResetPwResult :=
  let r := resetUserPasswordRun cfg httpListUsers httpUpdateUser options randBase36
  { cfg := cfg, result := r.1, log := r.2 }

/-! ## Media operations -/

/-- The delete request `deleteMedia` issues (the `?` is always present;
`URLSearchParams` renders empty when not forcing). -/
def mediaDeleteReq (cfg : WordPressConfig) (mediaId : Nat) (force : Bool) : WPRequest :=
  { method := "DELETE",
    url := cfg.siteUrl ++ "/wp-json/wp/v2/media/" ++ toString mediaId ++ "?" ++
      (if force then "force=true" else "") }

/-- `deleteMedia` body: one DELETE, `{success:true}` with no payload. -/
def deleteMediaRun (cfg : WordPressConfig)
    (httpDelete : WPRequest → Except JsError Unit)
    (mediaId : Nat) (force : Bool) : WPResult Unit × List WPRequest :=
  if cfg.siteUrl.isEmpty then (failRes siteUrlErr, [])
  else if !cfg.isAuthenticated then (failRes notAuthErr, [])
  else
    match getAuthHeader cfg with
    | .error e => (failRes e, [])
    | .ok _h =>
      let req := mediaDeleteReq cfg mediaId force
      match httpDelete req with
      | .error e => (failRes e, [req])
      | .ok _ => ({ success := true }, [req])

/-- `deleteMedia` (default `force=true`). -/
def deleteMedia (cfg : WordPressConfig)
    (httpDelete : WPRequest → Except JsError Unit)
    (mediaId : Nat) (force : Bool := true) : OpOut (WPResult Unit) :=
  let r := deleteMediaRun cfg httpDelete mediaId force
  { cfg := cfg, result := r.1, log := r.2 }

/-- The result of `bulkDeleteMedia`: `deleted`/`failed` are always present. -/
structure BulkDeleteResult where
  success : Bool
  deleted : List Nat
  failed : List Nat
  error : Option ErrorPayload := none
deriving Repr, DecidableEq

/-- The sequential loop of `bulkDeleteMedia`: each ID is attempted via
`deleteMedia` (which returns an envelope and never throws), and partitioned
by the envelope's `success` flag. -/
def bulkDeleteLoop (cfg : WordPressConfig) (httpDelete : WPRequest → Except JsError Unit)
    (force : Bool) : List Nat → List Nat × List Nat × List WPRequest
  | [] => ([], [], [])
  | i :: rest =>
    let out := deleteMedia cfg httpDelete i force
    let r := bulkDeleteLoop cfg httpDelete force rest
    if out.result.success then (i :: r.1, r.2.1, out.log ++ r.2.2)
    else (r.1, i :: r.2.1, out.log ++ r.2.2)

/-- `bulkDeleteMedia` body: on a local guard failure the `catch` block
returns `deleted=[]`, `failed=mediaIds`; otherwise the loop runs to the end
regardless of individual failures. -/
def bulkDeleteMediaRun (cfg : WordPressConfig)
    (httpDelete : WPRequest → Except JsError Unit)
    (mediaIds : List Nat) (force : Bool) : BulkDeleteResult × List WPRequest :=
  if cfg.siteUrl.isEmpty then
    let e := formatErrorResponse siteUrlErr
    ({ success := false, deleted := [], failed := mediaIds, error := some e }, [])
  else if !cfg.isAuthenticated then
    let e := formatErrorResponse notAuthErr
    ({ success := false, deleted := [], failed := mediaIds, error := some e }, [])
  else
    let r := bulkDeleteLoop cfg httpDelete force mediaIds
    ({ success := true, deleted := r.1, failed := r.2.1 }, r.2.2)

/-- `bulkDeleteMedia` (default `force=true`). -/
def bulkDeleteMedia (cfg : WordPressConfig)
    (httpDelete : WPRequest → Except JsError Unit)
    (mediaIds : List Nat) (force : Bool := true) : OpOut BulkDeleteResult :=
  let r := bulkDeleteMediaRun cfg httpDelete mediaIds force
  { cfg := cfg, result := r.1, log := r.2 }

/-! ## Content helpers (`utils/helpers.ts`) -/

/-- Contiguous-subsequence search (`String.prototype.includes`). -/
def listContainsSeq (pat : List Char) : List Char → Bool
  | [] => pat.isEmpty
  | c :: rest => pat.isPrefixOf (c :: rest) || listContainsSeq pat rest

/-- `s.includes(pat)`. -/
def jsIncludes (s pat : String) : Bool := listContainsSeq pat.data s.data

/-- `String.prototype.split` on a two-character separator (the source only
splits on `'\n\n'`): non-overlapping matches, left to right. -/
def splitTwoSep (a b : Char) : List Char → List (List Char)
  | [] => [[]]
  | [c] => [[c]]
  | c :: d :: rest =>
    if c = a ∧ d = b then [] :: splitTwoSep a b rest
    else
      match splitTwoSep a b (d :: rest) with
      | [] => [[c]]
      | h :: t => (c :: h) :: t

/-- `String.prototype.trim` (ASCII whitespace; JS also trims further Unicode
space characters, which none of the properties here depend on). -/
def jsTrim (l : List Char) : List Char :=
  ((l.dropWhile Char.isWhitespace).reverse.dropWhile Char.isWhitespace).reverse

/-- `Array.prototype.join` at the character-list level. -/
def jsJoinChars (sep : List Char) : List (List Char) → List Char
  | [] => []
  | [a] => a
  | a :: b :: rest => a ++ sep ++ jsJoinChars sep (b :: rest)

/-- `formatPostContent`: content already containing a `<p>`, `<h1>` or
`<div>` tag is returned unchanged; otherwise it is split into paragraphs on
blank lines, trimmed, emptied paragraphs dropped, each wrapped in
`<p>...</p>`, and joined with newlines. -/
def formatPostContent (content : String) : String :=
  if jsIncludes content "<p>" || jsIncludes content "<h1>" || jsIncludes content "<div>" then
    content
  else
    let paragraphs := (splitTwoSep '\n' '\n' content.data).map jsTrim
    let paragraphs := paragraphs.filter (fun p => p.length > 0)
    String.mk (jsJoinChars "\n".data (paragraphs.map (fun p => "<p>".data ++ p ++ "</p>".data)))

/-- `isPrefixOf` holds on an appended extension. -/
theorem isPrefixOf_append_self (l t : List Char) : l.isPrefixOf (l ++ t) = true := by
  induction l with
  | nil => simp [List.isPrefixOf]
  | cons c cs ih => simp [List.isPrefixOf, ih]

/-- A pattern is found in any list it starts. -/
theorem listContainsSeq_of_starts (pat t : List Char) :
    listContainsSeq pat (pat ++ t) = true := by
  cases pat with
  | nil =>
    cases t with
    | nil => simp [listContainsSeq, List.isEmpty]
    | cons c r => simp [listContainsSeq, List.isPrefixOf]
  | cons c cs =>
    simp only [List.cons_append, listContainsSeq, Bool.or_eq_true]
    exact Or.inl (isPrefixOf_append_self (c :: cs) t)

/-- `jsJoinChars` of a non-empty list starts with its head. -/
theorem jsJoinChars_cons (sep a : List Char) (l : List (List Char)) :
    ∃ t, jsJoinChars sep (a :: l) = a ++ t := by
  cases l with
  | nil => exact ⟨[], (List.append_nil a).symm⟩
  | cons b r =>
    exact ⟨sep ++ jsJoinChars sep (b :: r), by simp [jsJoinChars, List.append_assoc]⟩

/-- The empty string formats to itself. -/
theorem formatPostContent_empty : formatPostContent "" = "" := by decide

/-- C10: `formatPostContent` is idempotent — a second application returns
its input unchanged, because any non-empty output of the formatting branch
starts with a `<p>` tag (so the tag check short-circuits), the empty output
maps to itself, and the tag-check branch is the identity. -/
theorem C10_formatPostContent_idempotent (c : String) :
    formatPostContent (formatPostContent c) = formatPostContent c := by
  by_cases hb :
      (jsIncludes c "<p>" || jsIncludes c "<h1>" || jsIncludes c "<div>") = true
  · have h1 : formatPostContent c = c := by
      unfold formatPostContent
      rw [if_pos hb]
    rw [h1]
    exact h1
  · have h1 : formatPostContent c =
        String.mk (jsJoinChars "\n".data
          ((((splitTwoSep '\n' '\n' c.data).map jsTrim).filter
            (fun p => p.length > 0)).map (fun p => "<p>".data ++ p ++ "</p>".data))) := by
      unfold formatPostContent
      rw [if_neg hb]
    cases hps : ((splitTwoSep '\n' '\n' c.data).map jsTrim).filter (fun p => p.length > 0) with
    | nil =>
      rw [h1, hps]
      exact formatPostContent_empty
    | cons p rest =>
      obtain ⟨t, ht⟩ :=
        jsJoinChars_cons "\n".data ("<p>".data ++ p ++ "</p>".data)
          (rest.map (fun q => "<p>".data ++ q ++ "</p>".data))
      have hcontains :
          jsIncludes (String.mk (jsJoinChars "\n".data
            ((p :: rest).map (fun q => "<p>".data ++ q ++ "</p>".data)))) "<p>" = true := by
        simp only [List.map_cons, ht, jsIncludes]
        have hassoc : ("<p>".data ++ p ++ "</p>".data) ++ t =
            "<p>".data ++ (p ++ "</p>".data ++ t) := by
          simp [List.append_assoc]
        rw [hassoc]
        exact listContainsSeq_of_starts "<p>".data (p ++ "</p>".data ++ t)
      have hcond :
          (jsIncludes (String.mk (jsJoinChars "\n".data
              ((p :: rest).map (fun q => "<p>".data ++ q ++ "</p>".data)))) "<p>" ||
            jsIncludes (String.mk (jsJoinChars "\n".data
              ((p :: rest).map (fun q => "<p>".data ++ q ++ "</p>".data)))) "<h1>" ||
            jsIncludes (String.mk (jsJoinChars "\n".data
              ((p :: rest).map (fun q => "<p>".data ++ q ++ "</p>".data)))) "<div>") = true := by
        rw [Bool.or_eq_true, Bool.or_eq_true]
        exact Or.inl (Or.inl hcontains)
      have h2 : formatPostContent (String.mk (jsJoinChars "\n".data
          ((p :: rest).map (fun q => "<p>".data ++ q ++ "</p>".data)))) =
          String.mk (jsJoinChars "\n".data
            ((p :: rest).map (fun q => "<p>".data ++ q ++ "</p>".data))) := by
        unfold formatPostContent
        rw [if_pos hcond]
      rw [h1, hps]
      exact h2

/-! ## Claim C2: local precondition short-circuits -/

/-- The session is not ready for resource operations: no site URL, or the
authenticated flag is down. -/
def notReady (cfg : WordPressConfig) : Prop :=
  cfg.siteUrl.isEmpty = true ∨ cfg.isAuthenticated = false

/-- An operation output that failed on the corresponding local guard error
and issued no HTTP request. -/
def shortCircuits (cfg : WordPressConfig) (out : OpOut (WPResult α)) : Prop :=
  out.result = failRes (localGuardError cfg) ∧ out.log = []

/-- C2: every embedded resource operation, called with an unconfigured site
URL or with the authenticated flag false, fails locally with the
corresponding message (`WordPress site URL not configured` when the URL is
empty, `Not authenticated` otherwise) and issues zero HTTP requests. -/
theorem C2_short_circuit :
    formatErrorResponse siteUrlErr = .plain "WordPress site URL not configured" ∧
    formatErrorResponse notAuthErr = .plain "Not authenticated" ∧
    (∀ cfg http title content status excerpt cats tags, notReady cfg →
      shortCircuits cfg (createPost cfg http title content status excerpt cats tags)) ∧
    (∀ cfg http options, notReady cfg → shortCircuits cfg (listPosts cfg http options)) ∧
    (∀ cfg http httpRev postId inclRev, notReady cfg →
      shortCircuits cfg (getPost cfg http httpRev postId inclRev)) ∧
    (∀ cfg http postId updates, notReady cfg →
      shortCircuits cfg (updatePost cfg http postId updates)) ∧
    (∀ cfg http postId force, notReady cfg →
      shortCircuits cfg (deletePost cfg http postId force)) ∧
    (∀ cfg http, notReady cfg → shortCircuits cfg (getCategories cfg http)) ∧
    (∀ cfg http, notReady cfg → shortCircuits cfg (getTags cfg http)) ∧
    (∀ cfg http data, notReady cfg → shortCircuits cfg (createCategory cfg http data)) ∧
    (∀ cfg http categoryId force, notReady cfg →
      shortCircuits cfg (deleteCategory cfg http categoryId force)) ∧
    (∀ cfg http tagId force, notReady cfg → shortCircuits cfg (deleteTag cfg http tagId force)) ∧
    (∀ cfg hGet hPut hDel src tgt del, notReady cfg →
      shortCircuits cfg (mergeCategories cfg hGet hPut hDel src tgt del)) ∧
    (∀ cfg http options, notReady cfg → shortCircuits cfg (listUsers cfg http options)) ∧
    (∀ cfg http userId userData, notReady cfg →
      shortCircuits cfg (updateUser cfg http userId userData)) ∧
    (∀ cfg hLU hUU options rand, notReady cfg →
      (resetUserPassword cfg hLU hUU options rand).result =
          { success := false, error := some (formatErrorResponse (localGuardError cfg)) } ∧
        (resetUserPassword cfg hLU hUU options rand).log = []) ∧
    (∀ cfg http mediaId force, notReady cfg →
      shortCircuits cfg (deleteMedia cfg http mediaId force)) ∧
    (∀ cfg http mediaIds force, notReady cfg →
      (bulkDeleteMedia cfg http mediaIds force).result =
          { success := false, deleted := [], failed := mediaIds,
            error := some (formatErrorResponse (localGuardError cfg)) } ∧
        (bulkDeleteMedia cfg http mediaIds force).log = []) := by
  refine ⟨by decide, by decide, ?_, ?_, ?_, ?_, ?_, ?_, ?_, ?_, ?_, ?_, ?_, ?_, ?_, ?_, ?_, ?_⟩
  · intro cfg http title content status excerpt cats tags h
    rcases h with h | h
    · simp [createPost, createPostRun, shortCircuits, localGuardError, h]
    · by_cases he : cfg.siteUrl.isEmpty <;>
        simp [createPost, createPostRun, shortCircuits, localGuardError, h, he]
  · intro cfg http options h
    rcases h with h | h
    · simp [listPosts, listPostsRun, shortCircuits, localGuardError, h]
    · by_cases he : cfg.siteUrl.isEmpty <;>
        simp [listPosts, listPostsRun, shortCircuits, localGuardError, h, he]
  · intro cfg http httpRev postId inclRev h
    rcases h with h | h
    · simp [getPost, getPostRun, shortCircuits, localGuardError, h]
    · by_cases he : cfg.siteUrl.isEmpty <;>
        simp [getPost, getPostRun, shortCircuits, localGuardError, h, he]
  · intro cfg http postId updates h
    rcases h with h | h
    · simp [updatePost, updatePostRun, shortCircuits, localGuardError, h]
    · by_cases he : cfg.siteUrl.isEmpty <;>
        simp [updatePost, updatePostRun, shortCircuits, localGuardError, h, he]
  · intro cfg http postId force h
    rcases h with h | h
    · simp [deletePost, deletePostRun, shortCircuits, localGuardError, h]
    · by_cases he : cfg.siteUrl.isEmpty <;>
        simp [deletePost, deletePostRun, shortCircuits, localGuardError, h, he]
  · intro cfg http h
    rcases h with h | h
    · simp [getCategories, getCategoriesRun, shortCircuits, localGuardError, h]
    · by_cases he : cfg.siteUrl.isEmpty <;>
        simp [getCategories, getCategoriesRun, shortCircuits, localGuardError, h, he]
  · intro cfg http h
    rcases h with h | h
    · simp [getTags, getTagsRun, shortCircuits, localGuardError, h]
    · by_cases he : cfg.siteUrl.isEmpty <;>
        simp [getTags, getTagsRun, shortCircuits, localGuardError, h, he]
  · intro cfg http data h
    rcases h with h | h
    · simp [createCategory, createCategoryRun, shortCircuits, localGuardError, h]
    · by_cases he : cfg.siteUrl.isEmpty <;>
        simp [createCategory, createCategoryRun, shortCircuits, localGuardError, h, he]
  · intro cfg http categoryId force h
    rcases h with h | h
    · simp [deleteCategory, deleteCategoryRun, shortCircuits, localGuardError, h]
    · by_cases he : cfg.siteUrl.isEmpty <;>
        simp [deleteCategory, deleteCategoryRun, shortCircuits, localGuardError, h, he]
  · intro cfg http tagId force h
    rcases h with h | h
    · simp [deleteTag, deleteTagRun, shortCircuits, localGuardError, h]
    · by_cases he : cfg.siteUrl.isEmpty <;>
        simp [deleteTag, deleteTagRun, shortCircuits, localGuardError, h, he]
  · intro cfg hGet hPut hDel src tgt del h
    rcases h with h | h
    · simp [mergeCategories, mergeCategoriesRun, shortCircuits, localGuardError, h]
    · by_cases he : cfg.siteUrl.isEmpty <;>
        simp [mergeCategories, mergeCategoriesRun, shortCircuits, localGuardError, h, he]
  · intro cfg http options h
    rcases h with h | h
    · simp [listUsers, listUsersRun, shortCircuits, localGuardError, h]
    · by_cases he : cfg.siteUrl.isEmpty <;>
        simp [listUsers, listUsersRun, shortCircuits, localGuardError, h, he]
  · intro cfg http userId userData h
    rcases h with h | h
    · simp [updateUser, updateUserRun, shortCircuits, localGuardError, h]
    · by_cases he : cfg.siteUrl.isEmpty <;>
        simp [updateUser, updateUserRun, shortCircuits, localGuardError, h, he]
  · intro cfg hLU hUU options rand h
    rcases h with h | h
    · simp [resetUserPassword, resetUserPasswordRun, localGuardError, h]
    · by_cases he : cfg.siteUrl.isEmpty <;>
        simp [resetUserPassword, resetUserPasswordRun, localGuardError, h, he]
  · intro cfg http mediaId force h
    rcases h with h | h
    · simp [deleteMedia, deleteMediaRun, shortCircuits, localGuardError, h]
    · by_cases he : cfg.siteUrl.isEmpty <;>
        simp [deleteMedia, deleteMediaRun, shortCircuits, localGuardError, h, he]
  · intro cfg http mediaIds force h
    rcases h with h | h
    · simp [bulkDeleteMedia, bulkDeleteMediaRun, localGuardError, h]
    · by_cases he : cfg.siteUrl.isEmpty <;>
        simp [bulkDeleteMedia, bulkDeleteMediaRun, localGuardError, h, he]

/-- Witness for C2: on the initial (empty) configuration, `createPost`
fails with `WordPress site URL not configured` and issues no request. -/
theorem C2_witness :
    notReady initialConfig ∧
      shortCircuits initialConfig
        (createPost initialConfig (fun _ _ => .error (.jsError "unreachable"))
          "Title" "Content" "draft" "" [] []) :=
  ⟨Or.inl (by decide),
    C2_short_circuit.2.2.1 initialConfig (fun _ _ => .error (.jsError "unreachable"))
      "Title" "Content" "draft" "" [] [] (Or.inl (by decide))⟩

/-! ## Claim C4: who mutates the authenticated flag -/

/-- C4 counterexample: the claim says `setWordPressConfig` with *any*
partial configuration leaves `isAuthenticated` unchanged, but the object
spread copies an `isAuthenticated` field contained in the partial: merging
`{isAuthenticated: true}` into a configuration whose flag is false flips
the flag to true. -/
theorem C4_counterexample :
    (setWordPressConfig
        { siteUrl := "https://example.com", username := "bot", password := none,
          appPassword := some "abcd 1234", isAuthenticated := false }
        { isAuthenticated := some true }).isAuthenticated = true ∧
      ({ siteUrl := "https://example.com", username := "bot", password := none,
         appPassword := some "abcd 1234", isAuthenticated := false } :
          WordPressConfig).isAuthenticated = false :=
  ⟨rfl, rfl⟩

/-- C4 (amended): `setWordPressConfig` leaves `isAuthenticated` unchanged
whenever the partial configuration does not itself contain an
`isAuthenticated` field, and no embedded resource operation changes the
session configuration at all — `testAuthentication` and an explicit
`isAuthenticated` override in the merge are the only ways the flag moves. -/
theorem C4_only_probe_mutates_flag :
    (∀ cfg p, p.isAuthenticated = none →
      (setWordPressConfig cfg p).isAuthenticated = cfg.isAuthenticated) ∧
    (∀ cfg http title content status excerpt cats tags,
      (createPost cfg http title content status excerpt cats tags).cfg = cfg) ∧
    (∀ cfg http options, (listPosts cfg http options).cfg = cfg) ∧
    (∀ cfg http httpRev postId inclRev, (getPost cfg http httpRev postId inclRev).cfg = cfg) ∧
    (∀ cfg http postId updates, (updatePost cfg http postId updates).cfg = cfg) ∧
    (∀ cfg http postId force, (deletePost cfg http postId force).cfg = cfg) ∧
    (∀ cfg http, (getCategories cfg http).cfg = cfg) ∧
    (∀ cfg http, (getTags cfg http).cfg = cfg) ∧
    (∀ cfg http data, (createCategory cfg http data).cfg = cfg) ∧
    (∀ cfg http categoryId force, (deleteCategory cfg http categoryId force).cfg = cfg) ∧
    (∀ cfg http tagId force, (deleteTag cfg http tagId force).cfg = cfg) ∧
    (∀ cfg hGet hPut hDel src tgt del,
      (mergeCategories cfg hGet hPut hDel src tgt del).cfg = cfg) ∧
    (∀ cfg http options, (listUsers cfg http options).cfg = cfg) ∧
    (∀ cfg http userId userData, (updateUser cfg http userId userData).cfg = cfg) ∧
    (∀ cfg hLU hUU options rand, (resetUserPassword cfg hLU hUU options rand).cfg = cfg) ∧
    (∀ cfg http mediaId force, (deleteMedia cfg http mediaId force).cfg = cfg) ∧
    (∀ cfg http mediaIds force, (bulkDeleteMedia cfg http mediaIds force).cfg = cfg) := by
  refine ⟨?_, ?_, ?_, ?_, ?_, ?_, ?_, ?_, ?_, ?_, ?_, ?_, ?_, ?_, ?_, ?_, ?_⟩
  · intro cfg p hp
    simp [setWordPressConfig, hp]
  all_goals intros; rfl

/-- Witness for C4 (amended): a configuration-only merge (no
`isAuthenticated` field) leaves the flag where it was. -/
theorem C4_witness :
    (setWordPressConfig initialConfig
        { siteUrl := some "https://example.com" }).isAuthenticated =
      initialConfig.isAuthenticated :=
  C4_only_probe_mutates_flag.1 initialConfig { siteUrl := some "https://example.com" } rfl

/-! ## Claims C5-C9 -/

/-- A configured, authenticated session used by concrete witnesses. -/
def readyCfg : WordPressConfig :=
  { siteUrl := "https://example.com", username := "bot", password := none,
    appPassword := some "abcd 1234", isAuthenticated := true }

/-- C5 (code bug): the password generator is
`Math.random().toString(36).slice(-12)`. Evaluated at the possible draw
`Math.random() = 0.5` — whose base-36 string is `"0.i"` — the generated
password is `"0.i"`: 3 characters, one of them the non-alphanumeric `'.'`,
and this string is returned in `resetLink`. The claimed "exactly 12
alphanumeric characters" fails. -/
theorem C5_twelve_char_password_fails :
    (resetUserPassword readyCfg (fun _ => .ok { users := [] })
        (fun _ _ => .ok { id := 7 }) { userId := some 7 } "0.i".data).result =
      { success := true,
        message := some "Password reset for user 7. New password generated.",
        resetLink := some "Temporary password: 0.i" } ∧
      ¬((generateTempPassword "0.i".data).length = 12 ∧
        ∀ ch ∈ generateTempPassword "0.i".data, ch.isAlphanum = true) := by
  constructor
  · decide
  · decide

/-- C6: merging with an empty source category reports zero merged posts,
succeeds, and still issues the force-delete of the source category. -/
theorem C6_merge_empty_source_still_deletes (cfg : WordPressConfig)
    (hGet : WPRequest → Except JsError (List MergePostJson))
    (hPut : WPRequest → List Nat → Except JsError Unit)
    (hDel : WPRequest → Except JsError WPDeleteResponse)
    (src tgt : Nat)
    (hs : cfg.siteUrl.isEmpty = false) (ha : cfg.isAuthenticated = true)
    (hh : (getAuthHeader cfg).isOk = true)
    (hposts : hGet (mergeGetPostsReq cfg src) = .ok []) :
    (mergeCategories cfg hGet hPut hDel src tgt true).result = okRes 0 ∧
      (mergeCategories cfg hGet hPut hDel src tgt true).log =
        [mergeGetPostsReq cfg src, categoryDeleteReq cfg src true] := by
  cases hA : getAuthHeader cfg with
  | error e => rw [hA] at hh; simp [Except.isOk, Except.toBool] at hh
  | ok hdr =>
    cases hD : hDel (categoryDeleteReq cfg src true) with
    | error e =>
      simp [mergeCategories, mergeCategoriesRun, hs, ha, hA, hposts, mergeLoop,
        deleteCategory, deleteCategoryRun, hD]
    | ok d =>
      simp [mergeCategories, mergeCategoriesRun, hs, ha, hA, hposts, mergeLoop,
        deleteCategory, deleteCategoryRun, hD]

/-- Witness for C6: concrete session and oracles with no posts in the
source category; the merge succeeds with zero posts and the delete request
appears in the log. -/
theorem C6_witness :
    (mergeCategories readyCfg (fun _ => .ok []) (fun _ _ => .ok ())
        (fun _ => .ok {}) 4 9 true).result = okRes 0 ∧
      (mergeCategories readyCfg (fun _ => .ok []) (fun _ _ => .ok ())
        (fun _ => .ok {}) 4 9 true).log =
        [mergeGetPostsReq readyCfg 4, categoryDeleteReq readyCfg 4 true] :=
  C6_merge_empty_source_still_deletes readyCfg (fun _ => .ok []) (fun _ _ => .ok ())
    (fun _ => .ok {}) 4 9 (by decide) rfl (by decide) rfl

/-- The `bulkDeleteMedia` loop partitions IDs by the per-ID envelope and
logs one delete request per ID, given a ready session. -/
theorem bulkDeleteLoop_spec (cfg : WordPressConfig)
    (http : WPRequest → Except JsError Unit) (force : Bool) (hdr : String)
    (hs : cfg.siteUrl.isEmpty = false) (ha : cfg.isAuthenticated = true)
    (hA : getAuthHeader cfg = .ok hdr) (ids : List Nat) :
    bulkDeleteLoop cfg http force ids =
      (ids.filter (fun i => (http (mediaDeleteReq cfg i force)).isOk),
        ids.filter (fun i => !(http (mediaDeleteReq cfg i force)).isOk),
        ids.map (fun i => mediaDeleteReq cfg i force)) := by
  induction ids with
  | nil => simp [bulkDeleteLoop]
  | cons i rest ih =>
    cases hi : http (mediaDeleteReq cfg i force) with
    | error e =>
      simp [bulkDeleteLoop, deleteMedia, deleteMediaRun, hs, ha, hA, hi, ih,
        Except.isOk, Except.toBool, failRes]
    | ok u =>
      simp [bulkDeleteLoop, deleteMedia, deleteMediaRun, hs, ha, hA, hi, ih,
        Except.isOk, Except.toBool, failRes]

/-- C7: on a ready session, `bulkDeleteMedia` attempts every ID (one delete
request per ID, in order), succeeds overall, and partitions the input IDs
into `deleted` (individual delete succeeded) and `failed` (it did not);
a failure does not abort the batch. -/
theorem C7_bulk_delete_partitions (cfg : WordPressConfig)
    (http : WPRequest → Except JsError Unit) (ids : List Nat) (force : Bool)
    (hs : cfg.siteUrl.isEmpty = false) (ha : cfg.isAuthenticated = true)
    (hh : (getAuthHeader cfg).isOk = true) :
    (bulkDeleteMedia cfg http ids force).result.success = true ∧
      (bulkDeleteMedia cfg http ids force).result.deleted =
        ids.filter (fun i => (http (mediaDeleteReq cfg i force)).isOk) ∧
      (bulkDeleteMedia cfg http ids force).result.failed =
        ids.filter (fun i => !(http (mediaDeleteReq cfg i force)).isOk) ∧
      (bulkDeleteMedia cfg http ids force).log =
        ids.map (fun i => mediaDeleteReq cfg i force) := by
  cases hA : getAuthHeader cfg with
  | error e => rw [hA] at hh; simp [Except.isOk, Except.toBool] at hh
  | ok hdr =>
    have hloop := bulkDeleteLoop_spec cfg http force hdr hs ha hA ids
    simp [bulkDeleteMedia, bulkDeleteMediaRun, hs, ha, hloop]

/-- Witness for C7: IDs `[1,2,3]` where only ID 2 fails remotely yield
`deleted=[1,3]`, `failed=[2]`, with all three delete requests issued. -/
theorem C7_witness :
    (bulkDeleteMedia readyCfg
        (fun r => if r = mediaDeleteReq readyCfg 2 true then
          .error (.axiosError (some 500) (some "Internal Server Error") none
            "Request failed with status code 500") else .ok ())
        [1, 2, 3] true).result.success = true ∧
      (bulkDeleteMedia readyCfg
        (fun r => if r = mediaDeleteReq readyCfg 2 true then
          .error (.axiosError (some 500) (some "Internal Server Error") none
            "Request failed with status code 500") else .ok ())
        [1, 2, 3] true).result.deleted = [1, 3] ∧
      (bulkDeleteMedia readyCfg
        (fun r => if r = mediaDeleteReq readyCfg 2 true then
          .error (.axiosError (some 500) (some "Internal Server Error") none
            "Request failed with status code 500") else .ok ())
        [1, 2, 3] true).result.failed = [2] := by
  have h := C7_bulk_delete_partitions readyCfg
    (fun r => if r = mediaDeleteReq readyCfg 2 true then
      .error (.axiosError (some 500) (some "Internal Server Error") none
        "Request failed with status code 500") else .ok ())
    [1, 2, 3] true (by decide) rfl (by decide)
  exact ⟨h.1, h.2.1.trans (by decide), h.2.2.1.trans (by decide)⟩

/-- C8: the `merge-categories` tool handler with equal source and target
IDs returns the validation error, with the error flag set, before calling
`mergeCategories` — no HTTP request is issued and the result does not
depend on the session or the oracles. -/
theorem C8_merge_tool_rejects_equal_ids (cfg : WordPressConfig)
    (hGet : WPRequest → Except JsError (List MergePostJson))
    (hPut : WPRequest → List Nat → Except JsError Unit)
    (hDel : WPRequest → Except JsError WPDeleteResponse)
    (catId : Nat) (deleteSource : Bool) :
    mergeCategoriesTool cfg hGet hPut hDel catId catId deleteSource =
      ({ text := "Source and target categories cannot be the same", isError := true }, []) := by
  simp [mergeCategoriesTool]

/-- All-successful PUTs drive the merge loop to the end, counting every post. -/
theorem mergeLoop_all_ok (cfg : WordPressConfig)
    (hPut : WPRequest → List Nat → Except JsError Unit) (src tgt : Nat)
    (hput : ∀ r cats, hPut r cats = .ok ()) (posts : List MergePostJson) :
    ∀ count, (mergeLoop cfg hPut src tgt posts count).1 = .ok (count + posts.length) := by
  induction posts with
  | nil => intro count; simp [mergeLoop]
  | cons p rest ih =>
    intro count
    simp only [mergeLoop, hput, List.length_cons]
    rw [ih (count + 1)]
    congr 1
    omega

/-- C9: `mergeCategories` returns `success:true` with the merged-post count
even when the final force-delete of the source category fails remotely —
`deleteCategory` catches the failure into its own envelope, which
`mergeCategories` never inspects. -/
theorem C9_merge_ignores_delete_failure (cfg : WordPressConfig)
    (hGet : WPRequest → Except JsError (List MergePostJson))
    (hPut : WPRequest → List Nat → Except JsError Unit)
    (hDel : WPRequest → Except JsError WPDeleteResponse)
    (src tgt : Nat) (posts : List MergePostJson) (e : JsError)
    (hs : cfg.siteUrl.isEmpty = false) (ha : cfg.isAuthenticated = true)
    (hh : (getAuthHeader cfg).isOk = true)
    (hposts : hGet (mergeGetPostsReq cfg src) = .ok posts)
    (hput : ∀ r cats, hPut r cats = .ok ())
    (hdel : hDel (categoryDeleteReq cfg src true) = .error e) :
    (mergeCategories cfg hGet hPut hDel src tgt true).result = okRes posts.length ∧
      (deleteCategory cfg hDel src true).result = failRes e := by
  cases hA : getAuthHeader cfg with
  | error e' => rw [hA] at hh; simp [Except.isOk, Except.toBool] at hh
  | ok hdr =>
    have hloop := mergeLoop_all_ok cfg hPut src tgt hput posts 0
    simp [mergeCategories, mergeCategoriesRun, hs, ha, hA, hposts, hloop,
      deleteCategory, deleteCategoryRun, hdel]

/-- Witness for C9: one post in the source category, all updates succeed,
the source-category delete fails with a 500 — the merge still reports one
merged post and success. -/
theorem C9_witness :
    (mergeCategories readyCfg (fun _ => .ok [{ id := 7, categories := [3, 9] }])
        (fun _ _ => .ok ())
        (fun _ => .error (.axiosError (some 500) (some "Internal Server Error") none
          "Request failed with status code 500"))
        3 9 true).result = okRes 1 ∧
      (deleteCategory readyCfg
        (fun _ => .error (.axiosError (some 500) (some "Internal Server Error") none
          "Request failed with status code 500"))
        3 true).result =
        failRes (.axiosError (some 500) (some "Internal Server Error") none
          "Request failed with status code 500") :=
  C9_merge_ignores_delete_failure readyCfg
    (fun _ => .ok [{ id := 7, categories := [3, 9] }]) (fun _ _ => .ok ())
    (fun _ => .error (.axiosError (some 500) (some "Internal Server Error") none
      "Request failed with status code 500"))
    3 9 [{ id := 7, categories := [3, 9] }]
    (.axiosError (some 500) (some "Internal Server Error") none
      "Request failed with status code 500")
    (by decide) rfl (by decide) rfl (fun _ _ => rfl) rfl

end AutoWP
